import Mathlib

/-
Verification development for the profitbricks virtual-machine module
(cloud/profitbricks/profitbricks.py).  The Python module is shallowly
embedded: provider calls are recorded as elements of an explicit call
trace, the remote provider is a caller-supplied environment of response
data, and wall-clock polling loops are modelled by a poll budget (fuel)
with one unit per iteration of the corresponding while loop.
-/

namespace ProfitBricks

/-! ## String helpers

Structurally recursive stand-ins for the Python string operations used by
the module (str.lower, str.split, %-formatting), defined over the character
list of the string so that concrete evaluations reduce. -/

/-- Python s.lower() (ASCII, as in the vmState comparisons). -/
def pyLower (s : String) : String := ⟨s.data.map Char.toLower⟩

/-- Python s.split(sep) for a one-character separator. -/
def splitOnChar (sep : Char) : List Char → List (List Char)
  | [] => [[]]
  | c :: rest =>
    if c = sep then [] :: splitOnChar sep rest
    else
      match splitOnChar sep rest with
      | [] => [[c]]
      | g :: gs => (c :: g) :: gs

/-- Splits a character list on occurrences of the two-character sequence %d. -/
def splitOnPercentD : List Char → List (List Char)
  | [] => [[]]
  | '%' :: 'd' :: rest => [] :: splitOnPercentD rest
  | c :: rest =>
    match splitOnPercentD rest with
    | [] => [[c]]
    | g :: gs => (c :: g) :: gs

/-! ## The identifier regex

Source: uuid_match = re.compile('[\w]{8}-[\w]{4}-[\w]{4}-[\w]{4}-[\w]{12}', re.I)
used via uuid_match.match(s), i.e. anchored at the start of the string only.
In Python 2 without re.UNICODE, \w is exactly ASCII letters, digits and
underscore; re.I is irrelevant for \w. -/

def isWordChar (c : Char) : Bool :=
  c.isAlpha || c.isDigit || c == '_'

/-- Tokens of the fixed regex: a character-class repetition or a literal hyphen. -/
inductive RTok
  | cls (n : Nat)
  | dash
deriving DecidableEq

/-- Consume exactly n word characters from the front of the input. -/
def matchCls : Nat → List Char → Option (List Char)
  | 0, cs => some cs
  | _ + 1, [] => none
  | n + 1, c :: cs => if isWordChar c then matchCls n cs else none

/-- Match a token list against the front of the input, returning the rest.
Mirrors re.match: anything may follow a successful match. -/
def matchToks : List RTok → List Char → Option (List Char)
  | [], cs => some cs
  | RTok.cls n :: rest, cs =>
    match matchCls n cs with
    | none => none
    | some cs2 => matchToks rest cs2
  | RTok.dash :: _, [] => none
  | RTok.dash :: rest, c :: cs => if c = '-' then matchToks rest cs else none

/-- The token list of the literal regex in the source. -/
def uuidToks : List RTok :=
  [RTok.cls 8, RTok.dash, RTok.cls 4, RTok.dash, RTok.cls 4, RTok.dash,
   RTok.cls 4, RTok.dash, RTok.cls 12]

/-- uuid_match.match(s) as a Boolean: does the regex match a prefix of s. -/
def uuid_match (s : String) : Bool :=
  (matchToks uuidToks s.data).isSome

/-- A group of exactly n word characters. -/
def wordGroup (n : Nat) (g : List Char) : Bool :=
  (g.length == n) && g.all isWordChar

/-- Amended-specification predicate: the input begins with groups of word
characters of the given lengths, separated by single hyphens; arbitrary
text may follow the final group. -/
def groupsCheck : List Nat → List Char → Bool
  | [], _ => true
  | [n], cs => wordGroup n (cs.take n)
  | n :: m :: rest, cs =>
    wordGroup n (cs.take n) &&
      match cs.drop n with
      | [] => false
      | c :: tl => (c == '-') && groupsCheck (m :: rest) tl

/-- The amended claim for the identifier check: a prefix of five groups of
word characters with lengths 8, 4, 4, 4, 12 separated by hyphens. -/
def amendedUuidCheck (s : String) : Bool :=
  groupsCheck [8, 4, 4, 4, 12] s.data

/-- Builds the token list [cls n1, dash, cls n2, dash, ...] for group lengths. -/
def toksOf : List Nat → List RTok
  | [] => []
  | [n] => [RTok.cls n]
  | n :: m :: rest => RTok.cls n :: RTok.dash :: toksOf (m :: rest)

/-- A hexadecimal character (what the claim says the groups consist of). -/
def isHexChar (c : Char) : Bool :=
  c.isDigit || ('a' ≤ c && c ≤ 'f') || ('A' ≤ c && c ≤ 'F')

/-- The claim as stated: exactly five hyphen-separated groups of hexadecimal
characters with lengths 8, 4, 4, 4, 12 and nothing beyond them. -/
def claimUuidCheck (s : String) : Bool :=
  match splitOnChar '-' s.data with
  | [a, b, c, d, e] =>
    (a.length == 8) && (b.length == 4) && (c.length == 4) && (d.length == 4) &&
      (e.length == 12) && (a ++ b ++ c ++ d ++ e).all isHexChar
  | _ => false

/-! ## The async operation waiter

Source: _wait_for_completion(profitbricks, promise, wait_timeout, msg).
The wall-clock while loop is modelled with fuel: one unit per iteration,
the k-th iteration observing the k-th polled status. -/

/-- The message of the completion-failure exception, as formatted in the source. -/
def waitFailedMsg (msg requestId : String) : String :=
  ("Request failed to complete " ++ msg ++ " \"") ++ requestId ++ ("\" to complete.")

/-- The message of the timeout exception, as formatted in the source. -/
def waitTimeoutMsg (msg requestId : String) : String :=
  ("Timed out waiting for async operation " ++ msg ++ " \"") ++ requestId ++
    ("\" to complete.")

/-- Result of _wait_for_completion: normal return, or one of its two raised errors. -/
inductive WaitResult
  | returned
  | failedCompletion (errMsg : String)
  | timedOut (errMsg : String)
deriving DecidableEq

/-- The polling while loop of _wait_for_completion.  status k is the value of
operation_result.metadata.status at the k-th poll; recursion shifts the
status stream by one on each iteration. -/
def waitPoll (status : Nat → String) (requestId msg : String) : Nat → WaitResult
  | 0 => WaitResult.timedOut (waitTimeoutMsg msg requestId)
  | fuel + 1 =>
    if status 0 = "DONE" then WaitResult.returned
    else if status 0 = "FAILED" then
      WaitResult.failedCompletion (waitFailedMsg msg requestId)
    else waitPoll (fun i => status (i + 1)) requestId msg fuel

/-- _wait_for_completion: a falsy promise returns immediately, otherwise the
status of promise.requestId is polled until DONE, FAILED, or fuel runs out. -/
def waitForCompletion (status : Nat → String) (promise : Option String)
    (msg : String) (fuel : Nat) : WaitResult :=
  match promise with
  | none => WaitResult.returned
  | some requestId => waitPoll status requestId msg fuel

/-! ## Call traces and provider environment -/

/-- One remote call issued through the profitbricks client.  waitDone records
a successful _wait_for_completion of the given request (the polling calls
it performs are summarised by this single completion event). -/
inductive Call
  | listDatacenters
  | getDatacenter (dcId : String)
  | createDatacenter (dcName location : String)
  | createVolume (dcId volName : String)
  | waitDone (requestId : String)
  | listLans (dcId : String)
  | createLan (dcId : String)
  | createServer (dcId serverName bootVolumeId : String)
  | listNics (dcId serverId : String)
  | getServer (dcId serverRef : String)
  | deleteServer (dcId serverRef : String)
  | deleteVolume (dcId volumeId : String)
  | startServer (dcId serverRef : String)
  | stopServer (dcId serverRef : String)
  | listServers (dcId : String)
deriving DecidableEq

/-- A provider response carrying a requestId and the id of the created entity. -/
structure OpResponse where
  requestId : String
  id : String
deriving DecidableEq

/-- An item of list_datacenters, with the name that get_datacenter reports. -/
structure DCItem where
  id : String
  dcName : String
deriving DecidableEq

/-- An item of list_servers. -/
structure SrvItem where
  id : String
  srvName : String
deriving DecidableEq

/-! ## _create_machine -/

/-- Stub provider data consumed by one _create_machine call. -/
structure CreateEnv where
  volName : String
  volumeResp : OpResponse
  volumeStatus : Nat → String
  lans : List (String × Bool)
  lanResp : OpResponse
  lanStatus : Nat → String
  serverResp : OpResponse
  serverStatus : Nat → String

/-- Lines 257-276: when public-IP assignment is requested, list the LANs and
reuse the id of the last public one; otherwise create a LAN named public and
wait for it.  Returns (calls, resolved lan id, uncaught exception message). -/
def publicLanId (lans : List (String × Bool)) : Option String :=
  ((lans.filter (fun l => l.2)).map (fun l => l.1)).getLast?

/-- The network phase itself; see publicLanId above for the reuse scan. -/
def networkPhase (lans : List (String × Bool)) (lanResp : OpResponse)
    (lanStatus : Nat → String) (fuel : Nat) (dc lanParam : String)
    (assignPublicIp : Bool) : List Call × String × Option String :=
  if assignPublicIp then
    match publicLanId lans with
    | some lid => ([Call.listLans dc], lid, none)
    | none =>
      match waitForCompletion lanStatus (some lanResp.requestId) "_create_machine" fuel with
      | WaitResult.returned =>
        ([Call.listLans dc, Call.createLan dc, Call.waitDone lanResp.requestId],
         lanResp.id, none)
      | WaitResult.failedCompletion m => ([Call.listLans dc, Call.createLan dc], "", some m)
      | WaitResult.timedOut m => ([Call.listLans dc, Call.createLan dc], "", some m)
  else ([], lanParam, none)

/-- Outcome of _create_machine: the calls it issued, the id of the created
server response on success, and the fail_json message otherwise. -/
structure MachineRun where
  calls : List Call
  serverId : Option String
  failMsg : Option String
deriving DecidableEq

/-- _create_machine: create the boot volume, always wait for it, resolve the
LAN, create the server referencing the volume response id, and wait for the
server only when wait is set. -/
def createMachine (cenv : CreateEnv) (dc serverName lanParam : String)
    (assignPublicIp wait : Bool) (fuel : Nat) : MachineRun :=
  match waitForCompletion cenv.volumeStatus (some cenv.volumeResp.requestId)
      "create_volume" fuel with
  | WaitResult.failedCompletion m =>
    ⟨[Call.createVolume dc cenv.volName], none,
     some ("failed to create the new volume: " ++ m)⟩
  | WaitResult.timedOut m =>
    ⟨[Call.createVolume dc cenv.volName], none,
     some ("failed to create the new volume: " ++ m)⟩
  | WaitResult.returned =>
    let volCalls := [Call.createVolume dc cenv.volName,
                     Call.waitDone cenv.volumeResp.requestId]
    match networkPhase cenv.lans cenv.lanResp cenv.lanStatus fuel dc lanParam
        assignPublicIp with
    | (lanCalls, _, some m) => ⟨volCalls ++ lanCalls, none, some m⟩
    | (lanCalls, _, none) =>
      let calls := volCalls ++ lanCalls ++
        [Call.createServer dc serverName cenv.volumeResp.id]
      if wait then
        match waitForCompletion cenv.serverStatus (some cenv.serverResp.requestId)
            "create_virtual_machine" fuel with
        | WaitResult.returned =>
          ⟨calls ++ [Call.waitDone cenv.serverResp.requestId],
           some cenv.serverResp.id, none⟩
        | WaitResult.failedCompletion m =>
          ⟨calls, none, some ("failed to create the new server: " ++ m)⟩
        | WaitResult.timedOut m =>
          ⟨calls, none, some ("failed to create the new server: " ++ m)⟩
      else ⟨calls, some cenv.serverResp.id, none⟩

/-- Scans a trace: true iff no createServer call occurs before a completed
wait on the given request id. -/
def serverAfterVolumeWait (requestId : String) : List Call → Bool
  | [] => true
  | Call.createServer _ _ _ :: _ => false
  | Call.waitDone r :: rest =>
    if r = requestId then true else serverAfterVolumeWait requestId rest
  | _ :: rest => serverAfterVolumeWait requestId rest

/-- True iff every createServer call in the trace references the given
boot-volume id. -/
def bootVolumeRefsOk (volumeId : String) (calls : List Call) : Bool :=
  calls.all fun c =>
    match c with
    | Call.createServer _ _ b => b == volumeId
    | _ => true

/-! ## Datacenter resolution by name

The loop "for d in datacenter_list.items: dc = get_datacenter(d.id);
if datacenter == dc.properties.name: datacenter = d.id; break" shared by
create_virtual_machine, remove_virtual_machine and startstop_machine.
The result carries the loop variable d after the loop (none when the loop
body never ran, which leaves the Python name d unbound). -/
def dcLoop (dcRef : String) :
    List DCItem → Option DCItem → List Call →
    List Call × String × Bool × Option DCItem
  | [], lastD, acc => (acc, dcRef, false, lastD)
  | d :: rest, _, acc =>
    let acc2 := acc ++ [Call.getDatacenter d.id]
    if dcRef == d.dcName then (acc2, d.id, true, some d)
    else dcLoop dcRef rest (some d) acc2

/-- Provider data for _create_datacenter. -/
structure CreateDCEnv where
  resp : OpResponse
  status : Nat → String

/-- Lines 389-404 of create_virtual_machine: resolve the datacenter reference,
then, whenever datacenter_found is still false (which includes the branch
where the reference matched the identifier regex), create a new datacenter
via _create_datacenter, wait inside it, and wait once more at the call site.
Returns (calls, resolved datacenter id, fail_json message). -/
def createVMDatacenterPhase (dcParam location : String) (dcs : List DCItem)
    (denv : CreateDCEnv) (fuel : Nat) : List Call × String × Option String :=
  let r :=
    if uuid_match dcParam then ([], dcParam, false, (none : Option DCItem))
    else dcLoop dcParam dcs none [Call.listDatacenters]
  let calls := r.1
  let dc1 := r.2.1
  let found := r.2.2.1
  if found then (calls, dc1, none)
  else
    let calls2 := calls ++ [Call.createDatacenter dcParam location]
    match waitForCompletion denv.status (some denv.resp.requestId)
        "_create_datacenter" fuel with
    | WaitResult.failedCompletion m =>
      (calls2, dc1, some ("failed to create the new server(s): " ++ m))
    | WaitResult.timedOut m =>
      (calls2, dc1, some ("failed to create the new server(s): " ++ m))
    | WaitResult.returned =>
      let calls3 := calls2 ++ [Call.waitDone denv.resp.requestId]
      match waitForCompletion denv.status (some denv.resp.requestId)
          "create_virtual_machine" fuel with
      | WaitResult.failedCompletion m =>
        (calls3, denv.resp.id, some ("failed to set instance state: " ++ m))
      | WaitResult.timedOut m =>
        (calls3, denv.resp.id, some ("failed to set instance state: " ++ m))
      | WaitResult.returned =>
        (calls3 ++ [Call.waitDone denv.resp.requestId], denv.resp.id, none)

/-! ## Auto-increment naming

Lines 406-425.  The probe "name % 0" raising a TypeError starting with
"not all" detects a template with no conversion specifier; it is modelled
for %d templates by counting %d occurrences.  The numbers set is always
empty in the source, and CPython iterates a set of small consecutive
integers in increasing order, so the set difference is kept as a filtered
increasing range. -/

/-- Python "template % n" for a template containing a single %d. -/
def pyFormatD (template : String) (n : Nat) : String :=
  match splitOnPercentD template.data with
  | [] => template
  | [s] => ⟨s⟩
  | s :: rest => ⟨s ++ (toString n).data ++ List.intercalate ['%', 'd'] rest⟩

/-- Whether the name template accepts an integer substitution. -/
def hasFormatD (template : String) : Bool :=
  2 ≤ (splitOnPercentD template.data).length

/-- The list of machine names created for one request. -/
def computeNames (nameParam : String) (count : Nat) (autoIncrement : Bool) :
    List String :=
  if autoIncrement then
    let numbers : List Nat := []
    let countOffset := 1
    let template := if hasFormatD nameParam then nameParam else nameParam ++ "%d"
    let numberRange := (List.range (count + numbers.length)).map
      (fun i => countOffset + i)
    let available := numberRange.filter (fun i => !numbers.contains i)
    let numbersToUse := available.take count
    numbersToUse.map (pyFormatD template)
  else
    List.replicate count nameParam

/-! ## _remove_machine and remove_virtual_machine -/

/-- server.properties.bootVolume.href.split('/')[7]; list indexing is total
here with "" as the out-of-range value (well-formed hrefs have the volume id
at index 7). -/
def volumeIdOfHref (href : String) : String :=
  ⟨(splitOnChar '/' href.data).getD 7 []⟩

/-- _remove_machine: when remove_boot_volume is set, fetch the server and
capture the boot-volume id from its href before deleting the server, then
delete that volume after the server; otherwise only delete the server.
Returns the issued calls and the value of changed. -/
def removeMachineCalls (removeBootVolume : Bool) (dc serverRef href : String) :
    List Call × Bool :=
  let pre := if removeBootVolume then [Call.getServer dc serverRef] else []
  let volumeId := volumeIdOfHref href
  let calls := pre ++ [Call.deleteServer dc serverRef]
  let calls2 := if removeBootVolume then calls ++ [Call.deleteVolume dc volumeId]
    else calls
  (calls2, true)

/-- Stub provider data shared by the absent and running/stopped paths. -/
structure LifecycleEnv where
  datacenters : List DCItem
  servers : List SrvItem
  bootVolumeHref : String → String

/-- Result of a lifecycle entry point.  ok carries the Python return value
(none models the Python value None); nameError models a NameError raised on
reading an unbound variable; failJson is module.fail_json. -/
inductive Outcome
  | ok (ret : Option Bool)
  | okCreate (failed : Bool) (instanceIds : List String)
  | nameError (varName : String)
  | failJson (msg : String)
deriving DecidableEq

/-- A call trace together with the outcome it ended in. -/
structure Run where
  calls : List Call
  out : Outcome
deriving DecidableEq

/-- instance_ids is rejected when it is not a list or is empty. -/
def instanceIdsInvalid : Option (List String) → Bool
  | none => true
  | some l => decide (l.length < 1)

/-- Lines 477-487: the per-instance loop of remove_virtual_machine.  Both
branches read the datacenter loop variable d; when d is unbound a NameError
is raised.  The name branch removes every server whose name matches, and
passes the resolved datacenter string (not d.id) to _remove_machine. -/
def removeInstanceLoop (env : LifecycleEnv) (dcResolved : String)
    (dOpt : Option DCItem) (removeBootVolume : Bool) :
    List String → List Call → Run
  | [], acc => ⟨acc, Outcome.ok none⟩
  | n :: rest, acc =>
    if uuid_match n then
      match dOpt with
      | none => ⟨acc, Outcome.nameError "d"⟩
      | some d =>
        removeInstanceLoop env dcResolved dOpt removeBootVolume rest
          (acc ++ (removeMachineCalls removeBootVolume d.id n
            (env.bootVolumeHref n)).1)
    else
      match dOpt with
      | none => ⟨acc, Outcome.nameError "d"⟩
      | some d =>
        let acc2 := acc ++ [Call.listServers d.id]
        let hits := env.servers.filter (fun s => s.srvName == n)
        let acc3 := hits.foldl (fun a s =>
          a ++ (removeMachineCalls removeBootVolume dcResolved s.id
            (env.bootVolumeHref s.id)).1) acc2
        removeInstanceLoop env dcResolved dOpt removeBootVolume rest acc3

/-- remove_virtual_machine: validate instance_ids, resolve the datacenter
reference, then run the per-instance loop.  The function body has no return
statement, so the success outcome carries the Python value None. -/
def removeVirtualMachine (dcParam : String) (instanceIds : Option (List String))
    (removeBootVolume : Bool) (env : LifecycleEnv) : Run :=
  if instanceIdsInvalid instanceIds then
    ⟨[], Outcome.failJson
      "instance_ids should be a list of virtual machine ids or names, aborting"⟩
  else
    let ids := instanceIds.getD []
    let r :=
      if uuid_match dcParam then ([], dcParam, false, (none : Option DCItem))
      else dcLoop dcParam env.datacenters none [Call.listDatacenters]
    removeInstanceLoop env r.2.1 r.2.2.2 removeBootVolume ids r.1

/-! ## startstop_machine -/

/-- _startstop_machine: start_server when state is running, else stop_server. -/
def startstopCall (state dc serverRef : String) : Call :=
  if state == "running" then Call.startServer dc serverRef
  else Call.stopServer dc serverRef

/-- The target-state test of the wait loop (lines 538-543): a server counts
when state is running and its vmState lowercases to "running", or state is
stopped and its vmState lowercases to "shutoff". -/
def stateMatches (state vmState : String) : Bool :=
  if state == "running" then pyLower vmState == state
  else if state == "stopped" then pyLower vmState == "shutoff"
  else false

/-- Number of servers of one list_servers poll in the target state. -/
def matchedCount (state : String) (vmStates : List String) : Nat :=
  (vmStates.filter (stateMatches state)).length

/-- The polling while loop of startstop_machine (lines 534-548), fuel-indexed:
true means the loop broke because the matched count reached the requested
count, false means the wall-clock deadline expired first. -/
def stateWaitLoop (state : String) (polls : Nat → List String) (need : Nat) :
    Nat → Bool
  | 0 => false
  | fuel + 1 =>
    if matchedCount state (polls 0) < need then
      stateWaitLoop state (fun i => polls (i + 1)) need fuel
    else true

/-- The timeout failure message (its time.asctime() suffix is abstracted away,
wall-clock time being outside the model). -/
def stateTimeoutMsg : String := "wait for virtual machine state timeout on "

/-- Lines 533-552: when wait is set, poll until the count of servers in the
target state reaches need, failing with the timeout message when fuel runs
out; otherwise return changed at once. -/
def startstopWaitPhase (wait : Bool) (state : String) (polls : Nat → List String)
    (need fuel : Nat) (changed : Bool) : Outcome :=
  if wait then
    if stateWaitLoop state polls need fuel then Outcome.ok (some changed)
    else Outcome.failJson stateTimeoutMsg
  else Outcome.ok (some changed)

/-- Intermediate result of the per-instance loop of startstop_machine. -/
inductive LoopRes
  | done (calls : List Call) (changed : Bool)
  | unbound (calls : List Call)
deriving DecidableEq

/-- Lines 518-531: identifier-form instance ids are started or stopped
directly against the resolved datacenter string; name-form ids list the
servers of d.id (reading the loop variable d, unbound when the datacenter
reference matched the identifier regex) and act on every name match. -/
def startstopLoop (env : LifecycleEnv) (state dcResolved : String)
    (dOpt : Option DCItem) : List String → List Call → Bool → LoopRes
  | [], acc, changed => LoopRes.done acc changed
  | n :: rest, acc, changed =>
    if uuid_match n then
      startstopLoop env state dcResolved dOpt rest
        (acc ++ [startstopCall state dcResolved n]) true
    else
      match dOpt with
      | none => LoopRes.unbound acc
      | some d =>
        let acc2 := acc ++ [Call.listServers d.id]
        let hits := env.servers.filter (fun s => s.srvName == n)
        let acc3 := acc2 ++ hits.map (fun s => startstopCall state dcResolved s.id)
        startstopLoop env state dcResolved dOpt rest acc3 (changed || !hits.isEmpty)

/-- startstop_machine: validate instance_ids, resolve the datacenter
reference, start or stop each instance, then run the optional wait phase
against the requested instance count. -/
def startstopMachine (state dcParam : String) (instanceIds : Option (List String))
    (wait : Bool) (fuel : Nat) (env : LifecycleEnv) (polls : Nat → List String) :
    Run :=
  if instanceIdsInvalid instanceIds then
    ⟨[], Outcome.failJson
      "instance_ids should be a list of virtual machine ids or names, aborting"⟩
  else
    let ids := instanceIds.getD []
    let r :=
      if uuid_match dcParam then ([], dcParam, false, (none : Option DCItem))
      else dcLoop dcParam env.datacenters none [Call.listDatacenters]
    match startstopLoop env state r.2.1 r.2.2.2 ids r.1 false with
    | LoopRes.unbound acc => ⟨acc, Outcome.nameError "d"⟩
    | LoopRes.done acc changed =>
      ⟨acc, startstopWaitPhase wait state polls ids.length fuel changed⟩

/-! ## create_virtual_machine assembly and main -/

/-- Lines 427-435: create each named machine in turn, then list its NICs.
A fail_json inside _create_machine aborts the whole invocation. -/
def createVMMachinesLoop (cenv : CreateEnv) (dc lanParam : String)
    (assignPublicIp wait : Bool) (fuel : Nat) :
    List String → List Call → List String → Run
  | [], acc, ids => ⟨acc, Outcome.okCreate ids.isEmpty ids.reverse⟩
  | nm :: rest, acc, ids =>
    let mr := createMachine cenv dc nm lanParam assignPublicIp wait fuel
    match mr.failMsg with
    | some m => ⟨acc ++ mr.calls, Outcome.failJson m⟩
    | none =>
      let sid := mr.serverId.getD ""
      createVMMachinesLoop cenv dc lanParam assignPublicIp wait fuel rest
        (acc ++ mr.calls ++ [Call.listNics dc sid]) (sid :: ids)

/-- create_virtual_machine: resolve or create the datacenter, compute the
machine names, create the machines, and return the creation result record
(its failed flag is still true only when no machine was appended). -/
def createVirtualMachineRun (dcParam location nameParam : String) (count : Nat)
    (autoIncrement : Bool) (lanParam : String) (assignPublicIp wait : Bool)
    (dcs : List DCItem) (denv : CreateDCEnv) (cenv : CreateEnv) (fuel : Nat) :
    Run :=
  match createVMDatacenterPhase dcParam location dcs denv fuel with
  | (calls, _, some m) => ⟨calls, Outcome.failJson m⟩
  | (calls, dc, none) =>
    let names := computeNames nameParam count autoIncrement
    createVMMachinesLoop cenv dc lanParam assignPublicIp wait fuel names calls []

/-- The module parameters that the dispatch logic of main reads. -/
structure ModuleParams where
  datacenter : Option String
  name : Option String
  image : Option String
  subscriptionUser : Option String
  subscriptionPassword : Option String
  instanceIds : Option (List String)
  count : Nat
  autoIncrement : Bool
  lanParam : String
  location : String
  assignPublicIp : Bool
  wait : Bool
  removeBootVolume : Bool
  state : String

/-- The stub provider world one invocation runs against. -/
structure WorldEnv where
  lifecycle : LifecycleEnv
  dcEnv : CreateDCEnv
  createEnv : CreateEnv
  polls : Nat → List String
  fuel : Nat

/-- Python truthiness test "if not param" on an optional string parameter. -/
def falsy : Option String → Bool
  | none => true
  | some s => s == ""

/-- main (lines 593-632): dispatch on state; each path validates its required
parameters with fail_json before its first remote call. -/
def mainDispatch (p : ModuleParams) (w : WorldEnv) : Run :=
  if p.state == "absent" then
    if falsy p.datacenter then
      ⟨[], Outcome.failJson
        "datacenter parameter is required for running or stopping machines."⟩
    else removeVirtualMachine (p.datacenter.getD "") p.instanceIds
      p.removeBootVolume w.lifecycle
  else if p.state == "running" || p.state == "stopped" then
    if falsy p.datacenter then
      ⟨[], Outcome.failJson
        "datacenter parameter is required for running or stopping machines."⟩
    else startstopMachine p.state (p.datacenter.getD "") p.instanceIds p.wait
      w.fuel w.lifecycle w.polls
  else if p.state == "present" then
    if falsy p.name then
      ⟨[], Outcome.failJson "name parameter is required for new instance"⟩
    else if falsy p.image then
      ⟨[], Outcome.failJson "image parameter is required for new instance"⟩
    else if falsy p.subscriptionUser then
      ⟨[], Outcome.failJson
        "subscription_user parameter is required for new instance"⟩
    else if falsy p.subscriptionPassword then
      ⟨[], Outcome.failJson
        "subscription_password parameter is required for new instance"⟩
    else createVirtualMachineRun (p.datacenter.getD "") p.location
      (p.name.getD "") p.count p.autoIncrement p.lanParam p.assignPublicIp
      p.wait w.lifecycle.datacenters w.dcEnv w.createEnv w.fuel
  else ⟨[], Outcome.ok none⟩

/-! ## Concrete inputs used by witnesses and counterexamples -/

/-- A status stream whose second poll reports DONE. -/
def statusDoneAt1 : Nat → String := fun k => if k = 1 then "DONE" else "RUNNING"

/-- A status stream that reports FAILED immediately. -/
def statusFailedAt0 : Nat → String := fun _ => "FAILED"

/-- A status stream that never reaches DONE or FAILED. -/
def statusNeverDone : Nat → String := fun _ => "RUNNING"

/-- Poll streams for the start/stop wait phase. -/
def pollsReach2 : Nat → List String :=
  fun k => if k = 1 then ["RUNNING", "running"] else []

/-- A poll stream with no server ever in the target state. -/
def pollsNever : Nat → List String := fun _ => []

/-- The failing input of claim C1: a datacenter reference that matches the
identifier regex. -/
def dcRefC1 : String := "a3eae284-a2fe-11e4-b187-5f1f641608c8"

/-- Provider data for the C1 evaluation. -/
def denvC1 : CreateDCEnv := ⟨⟨"req-dc-1", "new-dc-id"⟩, fun _ => "DONE"⟩

/-- C8 counterexample: five 8-4-4-4-12 groups of word characters that are not
hexadecimal. -/
def cexC8 : String := "gggggggg-gggg-gggg-gggg-gggggggggggg"

/-- C8 counterexample: a matching 36-character prefix followed by extra text. -/
def cexC8b : String := "aaaaaaaa-aaaa-aaaa-aaaa-aaaaaaaaaaaa-extra"

/-- The provider world of the C9 evaluation: one datacenter named Tardis One. -/
def envC9 : LifecycleEnv :=
  ⟨[⟨"11111111-2222-3333-4444-555555555555", "Tardis One"⟩], [],
   fun _ => "https://host/rest/datacenters/dc-1/volumes/vol-1"⟩

/-- The instance list of the C9 evaluation: one identifier-form id. -/
def idsC9 : List String := ["aaaaaaaa-bbbb-cccc-dddd-eeeeeeeeeeee"]

/-- An identifier-form datacenter reference for the C10 witness. -/
def uuidDC10 : String := "deadbeef-dead-beef-dead-beefdeadbeef"

/-- An empty provider world for the C10 witness. -/
def envL10 : LifecycleEnv := ⟨[], [], fun _ => ""⟩

/-- Provider data for the C7 witness world. -/
def worldC7 : WorldEnv :=
  ⟨envL10, ⟨⟨"r", "d"⟩, fun _ => "DONE"⟩,
   ⟨"v0123456789", ⟨"rv", "v"⟩, fun _ => "DONE", [], ⟨"rl", "l"⟩, fun _ => "DONE",
    ⟨"rs", "s"⟩, fun _ => "DONE"⟩,
   fun _ => [], 0⟩

/-- An invalid parameter record for the C7 witness: state absent with no
datacenter. -/
def paramsC7 : ModuleParams :=
  ⟨none, none, none, none, none, none, 1, true, "1", "us/las", false, true, true,
   "absent"⟩

/-! ## Theorems -/

/-- Helper: waitPoll returns normally when the first DONE or FAILED among the
polled statuses is a DONE within the fuel budget. -/
theorem waitPoll_done_of_first (requestId msg : String) :
    ∀ (fuel j : Nat) (status : Nat → String), j < fuel → status j = "DONE" →
      (∀ i, i < j → status i ≠ "DONE" ∧ status i ≠ "FAILED") →
      waitPoll status requestId msg fuel = WaitResult.returned := by
  intro fuel
  induction fuel with
  | zero => intro j status hj _ _; exact absurd hj (Nat.not_lt_zero j)
  | succ f ih =>
    intro j status hj hdone hpre
    match j with
    | 0 => simp [waitPoll, hdone]
    | j' + 1 =>
      have h0 := hpre 0 (Nat.succ_pos j')
      simp only [waitPoll, if_neg h0.1, if_neg h0.2]
      exact ih j' (fun i => status (i + 1)) (Nat.lt_of_succ_lt_succ hj) hdone
        (fun i hi => hpre (i + 1) (Nat.succ_lt_succ hi))

/-- Helper: waitPoll raises the completion failure when the first DONE or
FAILED among the polled statuses is a FAILED within the fuel budget. -/
theorem waitPoll_failed_of_first (requestId msg : String) :
    ∀ (fuel j : Nat) (status : Nat → String), j < fuel → status j = "FAILED" →
      (∀ i, i < j → status i ≠ "DONE" ∧ status i ≠ "FAILED") →
      waitPoll status requestId msg fuel
        = WaitResult.failedCompletion (waitFailedMsg msg requestId) := by
  intro fuel
  induction fuel with
  | zero => intro j status hj _ _; exact absurd hj (Nat.not_lt_zero j)
  | succ f ih =>
    intro j status hj hfail hpre
    match j with
    | 0 =>
      have hne : status 0 ≠ "DONE" := by rw [hfail]; decide
      simp [waitPoll, hfail, hne]
    | j' + 1 =>
      have h0 := hpre 0 (Nat.succ_pos j')
      simp only [waitPoll, if_neg h0.1, if_neg h0.2]
      exact ih j' (fun i => status (i + 1)) (Nat.lt_of_succ_lt_succ hj) hfail
        (fun i hi => hpre (i + 1) (Nat.succ_lt_succ hi))

/-- Helper: waitPoll times out when no poll within the fuel budget reports
DONE or FAILED. -/
theorem waitPoll_timeout_of_none (requestId msg : String) :
    ∀ (fuel : Nat) (status : Nat → String),
      (∀ i, i < fuel → status i ≠ "DONE" ∧ status i ≠ "FAILED") →
      waitPoll status requestId msg fuel
        = WaitResult.timedOut (waitTimeoutMsg msg requestId) := by
  intro fuel
  induction fuel with
  | zero => intro status _; rfl
  | succ f ih =>
    intro status h
    have h0 := h 0 (Nat.succ_pos f)
    simp only [waitPoll, if_neg h0.1, if_neg h0.2]
    exact ih (fun i => status (i + 1)) (fun i hi => h (i + 1) (Nat.succ_lt_succ hi))

/-- C2: for every operation handle and poll budget, the waiter returns
normally when the polled status first becomes DONE within the budget, raises
the completion-failure error (whose message names the request identifier)
when the status first becomes FAILED, and raises the timeout error (whose
message also names the request identifier) when neither DONE nor FAILED is
observed within the budget. -/
theorem wait_for_completion_spec (status : Nat → String) (requestId msg : String)
    (fuel : Nat) :
    (∀ j, j < fuel → status j = "DONE" →
      (∀ i, i < j → status i ≠ "DONE" ∧ status i ≠ "FAILED") →
      waitForCompletion status (some requestId) msg fuel = WaitResult.returned)
    ∧ (∀ j, j < fuel → status j = "FAILED" →
      (∀ i, i < j → status i ≠ "DONE" ∧ status i ≠ "FAILED") →
      waitForCompletion status (some requestId) msg fuel
        = WaitResult.failedCompletion (waitFailedMsg msg requestId))
    ∧ ((∀ i, i < fuel → status i ≠ "DONE" ∧ status i ≠ "FAILED") →
      waitForCompletion status (some requestId) msg fuel
        = WaitResult.timedOut (waitTimeoutMsg msg requestId))
    ∧ (∃ a b, waitFailedMsg msg requestId = a ++ requestId ++ b)
    ∧ (∃ a b, waitTimeoutMsg msg requestId = a ++ requestId ++ b) := by
  refine ⟨?_, ?_, ?_, ?_, ?_⟩
  · intro j hj hd hpre
    exact waitPoll_done_of_first requestId msg fuel j status hj hd hpre
  · intro j hj hf hpre
    exact waitPoll_failed_of_first requestId msg fuel j status hj hf hpre
  · intro h
    exact waitPoll_timeout_of_none requestId msg fuel status h
  · exact ⟨"Request failed to complete " ++ msg ++ " \"", "\" to complete.", rfl⟩
  · exact ⟨"Timed out waiting for async operation " ++ msg ++ " \"",
      "\" to complete.", rfl⟩

/-- Witness for C2 at concrete status streams and budget 3. -/
theorem wait_for_completion_spec_witness :
    waitForCompletion statusDoneAt1 (some "req-7") "create_volume" 3
      = WaitResult.returned
    ∧ waitForCompletion statusFailedAt0 (some "req-7") "create_volume" 3
      = WaitResult.failedCompletion (waitFailedMsg "create_volume" "req-7")
    ∧ waitForCompletion statusNeverDone (some "req-7") "create_volume" 3
      = WaitResult.timedOut (waitTimeoutMsg "create_volume" "req-7") := by
  refine ⟨?_, ?_, ?_⟩
  · exact (wait_for_completion_spec statusDoneAt1 "req-7" "create_volume" 3).1
      1 (by decide) (by decide) (by decide)
  · exact (wait_for_completion_spec statusFailedAt0 "req-7" "create_volume" 3).2.1
      0 (by decide) (by decide) (by decide)
  · exact (wait_for_completion_spec statusNeverDone "req-7" "create_volume" 3).2.2.1
      (by decide)

/-- Helper: the polling loop breaks (returns true) when some poll within the
fuel budget first reaches the needed count. -/
theorem stateWaitLoop_of_reach (state : String) (need : Nat) :
    ∀ (fuel k : Nat) (polls : Nat → List String), k < fuel →
      need ≤ matchedCount state (polls k) →
      (∀ j, j < k → matchedCount state (polls j) < need) →
      stateWaitLoop state polls need fuel = true := by
  intro fuel
  induction fuel with
  | zero => intro k polls hk _ _; exact absurd hk (Nat.not_lt_zero k)
  | succ f ih =>
    intro k polls hk hge hpre
    match k with
    | 0 => simp [stateWaitLoop, Nat.not_lt.mpr hge]
    | k' + 1 =>
      have h0 := hpre 0 (Nat.succ_pos k')
      simp only [stateWaitLoop, if_pos h0]
      exact ih k' (fun i => polls (i + 1)) (Nat.lt_of_succ_lt_succ hk) hge
        (fun j hj => hpre (j + 1) (Nat.succ_lt_succ hj))

/-- Helper: the polling loop never breaks (returns false) when no poll within
the fuel budget reaches the needed count. -/
theorem stateWaitLoop_of_never (state : String) (need : Nat) :
    ∀ (fuel : Nat) (polls : Nat → List String),
      (∀ k, k < fuel → matchedCount state (polls k) < need) →
      stateWaitLoop state polls need fuel = false := by
  intro fuel
  induction fuel with
  | zero => intro polls _; rfl
  | succ f ih =>
    intro polls h
    have h0 := h 0 (Nat.succ_pos f)
    simp only [stateWaitLoop, if_pos h0]
    exact ih (fun i => polls (i + 1)) (fun k hk => h (k + 1) (Nat.succ_lt_succ hk))

/-- C6: with wait enabled, the wait phase returns normally as soon as a poll
of the server list counts at least as many servers in the target state as
there are requested instance references, and reports the timeout failure when
no poll within the budget does; a server is counted for state running when
its vmState lowercases to running, and for state stopped when it lowercases
to shutoff. -/
theorem startstop_wait_spec (state : String) (polls : Nat → List String)
    (need fuel : Nat) (changed : Bool) :
    (∀ k, k < fuel → need ≤ matchedCount state (polls k) →
      (∀ j, j < k → matchedCount state (polls j) < need) →
      startstopWaitPhase true state polls need fuel changed
        = Outcome.ok (some changed))
    ∧ ((∀ k, k < fuel → matchedCount state (polls k) < need) →
      startstopWaitPhase true state polls need fuel changed
        = Outcome.failJson stateTimeoutMsg)
    ∧ (∀ v, stateMatches "running" v = (pyLower v == "running"))
    ∧ (∀ v, stateMatches "stopped" v = (pyLower v == "shutoff")) := by
  refine ⟨?_, ?_, ?_, ?_⟩
  · intro k hk hge hpre
    simp [startstopWaitPhase, stateWaitLoop_of_reach state need fuel k polls hk hge hpre]
  · intro h
    simp [startstopWaitPhase, stateWaitLoop_of_never state need fuel polls h]
  · intro v; rfl
  · intro v; rfl

/-- Witness for C6: the count is reached at the second poll with budget 3,
and is never reached with budget 2. -/
theorem startstop_wait_spec_witness :
    startstopWaitPhase true "running" pollsReach2 2 3 true = Outcome.ok (some true)
    ∧ startstopWaitPhase true "running" pollsNever 2 2 false
      = Outcome.failJson stateTimeoutMsg := by
  refine ⟨?_, ?_⟩
  · exact (startstop_wait_spec "running" pollsReach2 2 3 true).1 1 (by decide)
      (by decide) (by decide)
  · exact (startstop_wait_spec "running" pollsNever 2 2 false).2.1 (by decide)

/-- Helper: the boot-volume reference check distributes over appended traces. -/
theorem bootVolumeRefsOk_append (volumeId : String) (l1 l2 : List Call) :
    bootVolumeRefsOk volumeId (l1 ++ l2)
      = (bootVolumeRefsOk volumeId l1 && bootVolumeRefsOk volumeId l2) := by
  simp [bootVolumeRefsOk]

/-- Helper: the network phase issues no createServer call, so every
createServer in its trace (there is none) references any given volume id. -/
theorem networkPhase_bootOk (lans : List (String × Bool)) (lanResp : OpResponse)
    (lanStatus : Nat → String) (fuel : Nat) (dc lanParam : String)
    (assignPublicIp : Bool) (volumeId : String) :
    bootVolumeRefsOk volumeId
      (networkPhase lans lanResp lanStatus fuel dc lanParam assignPublicIp).1
      = true := by
  unfold networkPhase
  split
  · split
    · rfl
    · split <;> rfl
  · rfl

/-- C3: in every execution of _create_machine, no createServer call precedes
the completed wait on the volume-create request, and every createServer call
references the volume-create response id as its boot volume — regardless of
the caller wait setting. -/
theorem server_create_after_volume_wait (cenv : CreateEnv)
    (dc serverName lanParam : String) (assignPublicIp wait : Bool) (fuel : Nat) :
    serverAfterVolumeWait cenv.volumeResp.requestId
      (createMachine cenv dc serverName lanParam assignPublicIp wait fuel).calls
      = true
    ∧ bootVolumeRefsOk cenv.volumeResp.id
      (createMachine cenv dc serverName lanParam assignPublicIp wait fuel).calls
      = true := by
  constructor
  · unfold createMachine
    split
    · simp [serverAfterVolumeWait]
    · simp [serverAfterVolumeWait]
    · split
      · simp [serverAfterVolumeWait]
      · split
        · split <;> simp [serverAfterVolumeWait]
        · simp [serverAfterVolumeWait]
  · unfold createMachine
    split
    · rfl
    · rfl
    · split
      next lanCalls lanId m heq =>
        have h := networkPhase_bootOk cenv.lans cenv.lanResp cenv.lanStatus fuel
          dc lanParam assignPublicIp cenv.volumeResp.id
        rw [heq] at h
        dsimp only at h
        simp only [bootVolumeRefsOk_append, h]
        simp [bootVolumeRefsOk]
      next lanCalls lanId heq =>
        have h := networkPhase_bootOk cenv.lans cenv.lanResp cenv.lanStatus fuel
          dc lanParam assignPublicIp cenv.volumeResp.id
        rw [heq] at h
        dsimp only at h
        split
        · split <;>
            · simp only [bootVolumeRefsOk_append, h]
              simp [bootVolumeRefsOk]
        · simp only [bootVolumeRefsOk_append, h]
          simp [bootVolumeRefsOk]

/-- C5: for every removal of one server, with remove_boot_volume enabled the
call order is exactly get-server (capturing the volume id from the boot
volume href), then delete-server, then delete-volume of the captured id; with
remove_boot_volume disabled the only call is delete-server, and no
delete-volume call occurs. -/
theorem remove_machine_order_spec (dc serverRef href : String) :
    removeMachineCalls true dc serverRef href
      = ([Call.getServer dc serverRef, Call.deleteServer dc serverRef,
          Call.deleteVolume dc (volumeIdOfHref href)], true)
    ∧ removeMachineCalls false dc serverRef href
      = ([Call.deleteServer dc serverRef], true)
    ∧ (∀ v, Call.deleteVolume dc v ∉ (removeMachineCalls false dc serverRef href).1) := by
  refine ⟨rfl, rfl, ?_⟩
  intro v
  simp [removeMachineCalls]

/-- C4: with auto_increment enabled, requesting three machines named web
yields the three pairwise-distinct names web1, web2, web3, each obtained by
substituting one of the first three unused integers starting at 1 into the
template formed by appending a placeholder to the placeholder-free name;
with auto_increment disabled, the same request yields the literal name web
three times. -/
theorem auto_increment_names_spec :
    computeNames "web" 3 true = ["web1", "web2", "web3"]
    ∧ computeNames "web" 3 true = [1, 2, 3].map (pyFormatD ("web" ++ "%d"))
    ∧ (computeNames "web" 3 true).Nodup
    ∧ computeNames "web" 3 false = ["web", "web", "web"] := by
  refine ⟨by decide, by decide, by decide, by decide⟩

/-- Helper: the class matcher consumes exactly n characters when the first n
characters exist and are word characters, and fails otherwise. -/
theorem matchCls_eq : ∀ (n : Nat) (cs : List Char),
    matchCls n cs =
      if n ≤ cs.length ∧ (cs.take n).all isWordChar = true then some (cs.drop n)
      else none := by
  intro n
  induction n with
  | zero => intro cs; simp [matchCls]
  | succ m ih =>
    intro cs
    cases cs with
    | nil => simp [matchCls]
    | cons c tl =>
      by_cases hw : isWordChar c
      · simp [matchCls, hw, ih tl, Nat.succ_le_succ_iff]
      · simp [matchCls, hw]

/-- Helper: a word group taken from the front of the input is valid exactly
when the input is long enough and the taken characters are word characters. -/
theorem wordGroup_take (n : Nat) (cs : List Char) :
    wordGroup n (cs.take n)
      = (decide (n ≤ cs.length) && (cs.take n).all isWordChar) := by
  by_cases h : n ≤ cs.length
  · simp [wordGroup, List.length_take, Nat.min_eq_left h, h]
  · have hlt : cs.length < n := Nat.lt_of_not_le h
    have : min n cs.length = cs.length := Nat.min_eq_right (Nat.le_of_lt hlt)
    simp [wordGroup, List.length_take, this, h, Nat.ne_of_lt hlt]

/-- Helper: matching the token list built from a list of group lengths
succeeds exactly when the group-structure check holds. -/
theorem matchToks_toksOf_eq : ∀ (groups : List Nat) (cs : List Char),
    (matchToks (toksOf groups) cs).isSome = groupsCheck groups cs := by
  intro groups
  induction groups with
  | nil => intro cs; simp [toksOf, matchToks, groupsCheck]
  | cons n rest ih =>
    intro cs
    cases rest with
    | nil =>
      rw [show toksOf [n] = [RTok.cls n] from rfl]
      rw [show groupsCheck [n] cs = wordGroup n (cs.take n) from rfl]
      rw [wordGroup_take]
      simp only [matchToks, matchCls_eq]
      by_cases hP : n ≤ cs.length ∧ (cs.take n).all isWordChar = true
      · simp [hP, matchToks, hP.1, hP.2]
      · rcases Decidable.not_and_iff_or_not.mp hP with hn | hn <;> simp [hP, hn]
    | cons m rest2 =>
      rw [show toksOf (n :: m :: rest2) = RTok.cls n :: RTok.dash :: toksOf (m :: rest2)
        from rfl]
      rw [show groupsCheck (n :: m :: rest2) cs
        = (wordGroup n (cs.take n) &&
            match cs.drop n with
            | [] => false
            | c :: tl => (c == '-') && groupsCheck (m :: rest2) tl) from rfl]
      rw [wordGroup_take]
      simp only [matchToks, matchCls_eq]
      by_cases hP : n ≤ cs.length ∧ (cs.take n).all isWordChar = true
      · simp only [if_pos hP]
        cases hd : cs.drop n with
        | nil => simp [matchToks, hP.1, hP.2]
        | cons c tl =>
          by_cases hc : c = '-'
          · subst hc
            simp [matchToks, hP.1, hP.2, ih tl]
          · simp [matchToks, hP.1, hP.2, hc]
      · rcases Decidable.not_and_iff_or_not.mp hP with hn | hn <;> simp [hP, hn]

/-- C8 counterexample: the source check accepts a string whose groups contain
the non-hexadecimal word character g, and a string with text beyond the
36-character pattern, both of which the claim classifies as human names. -/
theorem uuid_match_claim_counterexample :
    uuid_match cexC8 = true ∧ claimUuidCheck cexC8 = false
    ∧ uuid_match cexC8b = true ∧ claimUuidCheck cexC8b = false := by
  refine ⟨by decide, by decide, by decide, by decide⟩

/-- C8 (amended): the identifier check accepts exactly the strings that begin
with five groups of word characters (letters, digits or underscore) of
lengths 8, 4, 4, 4 and 12 separated by hyphens, with arbitrary text allowed
after the final group; all other strings are classified as human names. -/
theorem uuid_match_amended_spec (s : String) : uuid_match s = amendedUuidCheck s := by
  unfold uuid_match amendedUuidCheck
  rw [show uuidToks = toksOf [8, 4, 4, 4, 12] from rfl]
  exact matchToks_toksOf_eq [8, 4, 4, 4, 12] s.data

/-- C1 (code bug): evaluated at a datacenter reference that matches the
identifier pattern, the create path indeed issues no datacenter-list call,
but because datacenter_found is never set in that branch it goes on to
create a new datacenter named by the reference and replaces the reference
with the new identifier — contradicting the claim that the reference is
used verbatim and that no datacenter is created. -/
theorem create_path_uuid_datacenter_bug :
    uuid_match dcRefC1 = true
    ∧ Call.listDatacenters ∉ (createVMDatacenterPhase dcRefC1 "us/las" [] denvC1 1).1
    ∧ Call.createDatacenter dcRefC1 "us/las"
        ∈ (createVMDatacenterPhase dcRefC1 "us/las" [] denvC1 1).1
    ∧ (createVMDatacenterPhase dcRefC1 "us/las" [] denvC1 1).2.1 = "new-dc-id"
    ∧ "new-dc-id" ≠ dcRefC1 := by
  refine ⟨by decide, by decide, by decide, by decide, by decide⟩

/-- C9 (code bug): a successful state=absent run that deletes a server still
ends with the Python return value None (remove_virtual_machine has no return
statement), so the changed field exported by main is None rather than the
boolean true required by the claim and by the function docstring. -/
theorem remove_vm_returns_none :
    (removeVirtualMachine "Tardis One" (some idsC9) true envC9).out
      = Outcome.ok none
    ∧ Call.deleteServer "11111111-2222-3333-4444-555555555555"
        "aaaaaaaa-bbbb-cccc-dddd-eeeeeeeeeeee"
        ∈ (removeVirtualMachine "Tardis One" (some idsC9) true envC9).calls := by
  refine ⟨by decide, by decide⟩

/-- C10: when the datacenter reference matches the identifier pattern the
datacenter-listing loop never runs and its loop variable d stays unbound, so
in the absent path every instance reference (identifier-form and name-form
alike) raises a NameError with no delete issued, and in the running/stopped
path a name-form instance reference raises the same NameError with no start
or stop issued. -/
theorem unbound_loop_variable_spec (dcParam state : String) (env : LifecycleEnv)
    (removeBootVolume wait : Bool) (fuel : Nat) (polls : Nat → List String)
    (ids : List String) (n : String) :
    uuid_match dcParam = true →
    (ids ≠ [] →
      removeVirtualMachine dcParam (some ids) removeBootVolume env
        = ⟨[], Outcome.nameError "d"⟩)
    ∧ (uuid_match n = false →
      startstopMachine state dcParam (some [n]) wait fuel env polls
        = ⟨[], Outcome.nameError "d"⟩) := by
  intro hdc
  constructor
  · intro hne
    match ids, hne with
    | a :: l, _ =>
      have hval : instanceIdsInvalid (some (a :: l)) = false := by
        simp [instanceIdsInvalid]
      simp only [removeVirtualMachine, hval, Bool.false_eq_true, if_false,
        Option.getD_some, if_pos hdc]
      cases ha : uuid_match a <;> simp [removeInstanceLoop, ha]
  · intro hn
    have hval : instanceIdsInvalid (some [n]) = false := by
      simp [instanceIdsInvalid]
    simp only [startstopMachine, hval, Bool.false_eq_true, if_false,
      Option.getD_some, if_pos hdc]
    simp [startstopLoop, hn]

/-- Witness for C10 at a concrete identifier-form datacenter reference and a
name-form instance reference. -/
theorem unbound_loop_variable_spec_witness :
    removeVirtualMachine uuidDC10 (some ["web001"]) true envL10
      = ⟨[], Outcome.nameError "d"⟩
    ∧ startstopMachine "running" uuidDC10 (some ["web001"]) true 0 envL10
        (fun _ => []) = ⟨[], Outcome.nameError "d"⟩ := by
  have h := unbound_loop_variable_spec uuidDC10 "running" envL10 true true 0
    (fun _ => []) ["web001"] "web001" (by decide)
  exact ⟨h.1 (by decide), h.2 (by decide)⟩

/-- C7: for every configuration in which state is absent, running or stopped
and instance_ids is not a non-empty list or the datacenter reference is
missing, or state is present and name, image, subscription_user or
subscription_password is missing, the dispatch fails with a validation
message and its call trace is empty — no remote call is issued. -/
theorem main_validation_spec (p : ModuleParams) (w : WorldEnv) :
    ((p.state = "absent" ∨ p.state = "running" ∨ p.state = "stopped")
        ∧ (falsy p.datacenter = true ∨ instanceIdsInvalid p.instanceIds = true))
    ∨ (p.state = "present"
        ∧ (falsy p.name = true ∨ falsy p.image = true
            ∨ falsy p.subscriptionUser = true
            ∨ falsy p.subscriptionPassword = true)) →
    ∃ msg, mainDispatch p w = ⟨[], Outcome.failJson msg⟩ := by
  intro h
  rcases h with ⟨hs, hv⟩ | ⟨hs, hv⟩
  · by_cases hdc : falsy p.datacenter = true
    · rcases hs with hs | hs | hs <;>
        exact ⟨"datacenter parameter is required for running or stopping machines.",
          by simp [mainDispatch, hs, hdc]⟩
    · have hdc2 : falsy p.datacenter = false := by
        cases hfd : falsy p.datacenter
        · rfl
        · exact absurd hfd hdc
      have hids : instanceIdsInvalid p.instanceIds = true := by
        rcases hv with hv | hv
        · exact absurd hv hdc
        · exact hv
      rcases hs with hs | hs | hs
      · exact ⟨"instance_ids should be a list of virtual machine ids or names, aborting",
          by simp [mainDispatch, hs, hdc2, removeVirtualMachine, hids]⟩
      · exact ⟨"instance_ids should be a list of virtual machine ids or names, aborting",
          by simp [mainDispatch, hs, hdc2, startstopMachine, hids]⟩
      · exact ⟨"instance_ids should be a list of virtual machine ids or names, aborting",
          by simp [mainDispatch, hs, hdc2, startstopMachine, hids]⟩
  · by_cases h1 : falsy p.name = true
    · exact ⟨"name parameter is required for new instance",
        by simp [mainDispatch, hs, h1]⟩
    · have h1f : falsy p.name = false := by
        cases hfd : falsy p.name
        · rfl
        · exact absurd hfd h1
      by_cases h2 : falsy p.image = true
      · exact ⟨"image parameter is required for new instance",
          by simp [mainDispatch, hs, h1f, h2]⟩
      · have h2f : falsy p.image = false := by
          cases hfd : falsy p.image
          · rfl
          · exact absurd hfd h2
        by_cases h3 : falsy p.subscriptionUser = true
        · exact ⟨"subscription_user parameter is required for new instance",
            by simp [mainDispatch, hs, h1f, h2f, h3]⟩
        · have h3f : falsy p.subscriptionUser = false := by
            cases hfd : falsy p.subscriptionUser
            · rfl
            · exact absurd hfd h3
          by_cases h4 : falsy p.subscriptionPassword = true
          · exact ⟨"subscription_password parameter is required for new instance",
              by simp [mainDispatch, hs, h1f, h2f, h3f, h4]⟩
          · rcases hv with hv | hv | hv | hv
            · exact absurd hv h1
            · exact absurd hv h2
            · exact absurd hv h3
            · exact absurd hv h4

/-- Witness for C7: state absent with no datacenter fails with a validation
message and an empty call trace. -/
theorem main_validation_spec_witness :
    ∃ msg, mainDispatch paramsC7 worldC7 = ⟨[], Outcome.failJson msg⟩ :=
  main_validation_spec paramsC7 worldC7 (Or.inl ⟨Or.inl rfl, Or.inl rfl⟩)

end ProfitBricks
